import Mathlib

/-!
Verification of the StockNewsScreener signal-scanning pipeline.

The definitions below are a shallow embedding of the Python sources:
  bot_core/enhanced_screener.py  (NewsAnalyzer, AdvancedFilters)
  bot_core/news_screener.py      (FyersNewsScreener, Flask routes)
Python floats are modelled as rationals, Python lists as Lean lists,
Python None and raised exceptions as Option.none.
-/

/-- A news article; the classifier only ever reads title and description
(bot_core/enhanced_screener.py, analyze_sentiment).  The two fields are the
raw character sequences of the provider strings. -/
structure Article where
  title : List Char
  description : List Char
deriving DecidableEq

/-- Python: text = f"{title} {description}" after lower-casing both parts
(enhanced_screener.py lines 52-54). -/
def articleText (a : Article) : List Char :=
  a.title.map Char.toLower ++ ' ' :: a.description.map Char.toLower

/-- Python substring containment k in text (the str in operator). -/
def substr (k : List Char) : List Char → Bool
  | [] => k.isEmpty
  | c :: rest => k.isPrefixOf (c :: rest) || substr k rest

/-- NewsAnalyzer.POSITIVE_KEYWORDS (enhanced_screener.py lines 12-18).
Python stores these in a set; only membership tests are performed, so a
duplicate-free list is an equivalent model. -/
def POSITIVE_KEYWORDS : List String :=
  ["contract", "deal", "win", "won", "awarded", "growth", "profit",
   "surge", "gain", "record", "high", "acquisition", "expand",
   "partnership", "collaboration", "success", "breakthrough", "innovation",
   "dividend", "buyback", "upgrade", "positive", "approval", "order",
   "revenue", "beat", "exceed", "strong", "robust", "bullish"]

/-- NewsAnalyzer.NEGATIVE_KEYWORDS (enhanced_screener.py lines 21-26). -/
def NEGATIVE_KEYWORDS : List String :=
  ["loss", "losses", "decline", "drop", "fall", "fell", "down", "weak",
   "miss", "missed", "below", "concern", "worry", "risk", "threat",
   "lawsuit", "investigation", "fraud", "scandal", "downgrade", "cut",
   "layoff", "fire", "closure", "bankruptcy", "debt", "bearish", "warning"]

/-- Number of keywords of the given set that occur in one article's text
(the two inner for-loops of analyze_sentiment, lines 57-64: each keyword
adds one per article in which it occurs). -/
def keywordHits (keywords : List String) (a : Article) : Nat :=
  (keywords.filter (fun k => substr k.toList (articleText a))).length

/-- Total positive and negative keyword counts over an article list. -/
def sentimentCounts (articles : List Article) : Nat × Nat :=
  ((articles.map (keywordHits POSITIVE_KEYWORDS)).sum,
   (articles.map (keywordHits NEGATIVE_KEYWORDS)).sum)

/-- NewsAnalyzer.analyze_sentiment (enhanced_screener.py lines 39-73):
returns (sentiment_score, positive_count, negative_count); the score is
(pos - neg)/(pos + neg), or 0 when both counts are 0; the empty article
list short-circuits to (0, 0, 0). -/
def analyze_sentiment (articles : List Article) : ℚ × Nat × Nat :=
  if articles.isEmpty then (0, 0, 0)
  else
    let p := (sentimentCounts articles).1
    let n := (sentimentCounts articles).2
    if p + n = 0 then (0, p, n)
    else (((p : ℚ) - (n : ℚ)) / ((p : ℚ) + (n : ℚ)), p, n)

/-- NewsAnalyzer.MAJOR_NEWS_TYPES (enhanced_screener.py lines 29-37), in the
dict's insertion order, which is the order categorize_news iterates it. -/
def MAJOR_NEWS_TYPES : List (String × List String) :=
  [("contract", ["contract", "deal", "order", "awarded"]),
   ("financial", ["profit", "revenue", "earnings", "results", "quarter"]),
   ("acquisition", ["acquisition", "merger", "takeover", "buyout"]),
   ("regulatory", ["approval", "license", "compliance", "regulation"]),
   ("legal", ["lawsuit", "court", "legal", "case", "settlement"]),
   ("management", ["ceo", "cfo", "appointment", "resignation", "chairman"]),
   ("product", ["launch", "product", "service", "innovation"])]

/-- NewsAnalyzer.categorize_news (enhanced_screener.py lines 76-90): each
article contributes its first matching category, if any. -/
def categorize_news (articles : List Article) : List String :=
  articles.filterMap (fun a =>
    (MAJOR_NEWS_TYPES.find? (fun ck =>
      ck.2.any (fun k => substr k.toList (articleText a)))).map Prod.fst)

/-- NewsAnalyzer.is_major_news (enhanced_screener.py lines 93-100). -/
def is_major_news (articles : List Article) : Bool :=
  (categorize_news articles).any
    (fun c => ["contract", "acquisition", "regulatory", "legal"].contains c)

/-- Counter(categories).most_common(1): the most frequent category, ties
resolved toward the earliest-encountered one (CPython Counter preserves
insertion order and nlargest is stable in that order). -/
def mostCommonCategory (cats : List String) : Option String :=
  cats.foldl (fun best c =>
    match best with
    | none => some c
    | some b => if cats.count c > cats.count b then some c else some b) none

/-- The value returned by NewsAnalyzer.get_news_summary: either the literal
string sentinel "No recent news" (returned for an empty article list) or the
structured summary dict (enhanced_screener.py lines 102-138). -/
inductive NewsSummary where
  | noRecentNews
  | summary (sentiment : String) (sentiment_score : ℚ) (category : String)
      (is_major : Bool) (positive_keywords : Nat) (negative_keywords : Nat)
deriving DecidableEq

/-- NewsAnalyzer.get_news_summary (enhanced_screener.py lines 102-138). -/
def get_news_summary (articles : List Article) : NewsSummary :=
  if articles.isEmpty then NewsSummary.noRecentNews
  else
    let s := (analyze_sentiment articles).1
    let p := (analyze_sentiment articles).2.1
    let n := (analyze_sentiment articles).2.2
    let sentiment_label :=
      if s > 3/10 then "Highly Positive"
      else if s > 0 then "Positive"
      else if s < -(3/10) then "Highly Negative"
      else if s < 0 then "Negative"
      else "Neutral"
    let category_str :=
      match mostCommonCategory (categorize_news articles) with
      | some c => c.capitalize ++ " News"
      | none => "General News"
    NewsSummary.summary sentiment_label s category_str
      (is_major_news articles) p n

/-- One daily OHLCV row of the history DataFrame (news_screener.py
get_historical_data, line 82). -/
structure Candle where
  timestamp : ℤ
  openPrice : ℚ
  high : ℚ
  low : ℚ
  close : ℚ
  volume : ℚ
deriving DecidableEq

/-- The quote dict built by get_current_quote (news_screener.py lines
101-106). -/
structure Quote where
  ltp : ℚ
  volume : ℚ
  change_percent : ℚ
  prev_close : ℚ
deriving DecidableEq

/-- The volume/price analysis record built by analyze_volume_and_price
(news_screener.py lines 162-168). -/
structure AnalysisResult where
  volume_ratio : ℚ
  price_change : ℚ
  range_ratio : ℚ
  avg_volume : ℚ
  current_volume : ℚ
deriving DecidableEq

/-- Volume component of AdvancedFilters.calculate_strength_score
(enhanced_screener.py lines 189-198). -/
def volumeScore (a : AnalysisResult) : ℤ :=
  if a.volume_ratio > 5 then 30
  else if a.volume_ratio > 3 then 25
  else if a.volume_ratio > 2 then 20
  else 10

/-- Price-change component (enhanced_screener.py lines 200-209). -/
def priceScore (a : AnalysisResult) : ℤ :=
  if |a.price_change| > 8 then 25
  else if |a.price_change| > 5 then 20
  else if |a.price_change| > 3 then 15
  else 10

/-- News component (enhanced_screener.py lines 211-220).  Python receives
whatever the caller passes as news_summary: None skips the block
(falsy), a structured dict is read with .get, and the string sentinel
"No recent news" is truthy but has no .get method, so the call raises
AttributeError — modelled as Option.none. -/
def newsScore : Option NewsSummary → Option ℤ
  | none => some 0
  | some NewsSummary.noRecentNews => none
  | some (NewsSummary.summary _ s _ major _ _) =>
      some ((if major then 15 else 0) +
            (if |s| > 1/2 then 10 else if |s| > 1/5 then 5 else 0))

/-- Range/volatility component (enhanced_screener.py lines 222-229). -/
def rangeScore (a : AnalysisResult) : ℤ :=
  if a.range_ratio > 2 then 20
  else if a.range_ratio > 3/2 then 15
  else if a.range_ratio > 1 then 10
  else 0

/-- AdvancedFilters.calculate_strength_score (enhanced_screener.py lines
182-231): the banded components are summed and clamped with min(score, 100);
the whole call fails (none) exactly when the news block raises. -/
def calculate_strength_score (analysis : AnalysisResult)
    (news_summary : Option NewsSummary) (df : Option (List Candle)) : Option ℤ :=
  (newsScore news_summary).map (fun ns =>
    min (volumeScore analysis + priceScore analysis + ns + rangeScore analysis) 100)

/-- pandas Series.mean: sum divided by length (rationals). -/
def mean (l : List ℚ) : ℚ := l.sum / (l.length : ℚ)

/-- FyersNewsScreener.analyze_volume_and_price (news_screener.py lines
141-168).  Returns None when the history is absent or has fewer than 10
rows; both ratio divisions are guarded by a positivity test on the mean. -/
def analyze_volume_and_price (df : Option (List Candle)) (current_quote : Quote) :
    Option AnalysisResult :=
  match df with
  | none => none
  | some rows =>
    if rows.length < 10 then none
    else
      let avg_volume := mean (rows.dropLast.map Candle.volume)
      let current_volume := current_quote.volume
      let volume_ratio := if avg_volume > 0 then current_volume / avg_volume else 0
      let price_change := current_quote.change_percent
      let avg_range := mean (rows.map (fun c => c.high - c.low))
      let current_range := |current_quote.ltp - current_quote.prev_close|
      let range_ratio := if avg_range > 0 then current_range / avg_range else 0
      some { volume_ratio := volume_ratio, price_change := price_change,
             range_ratio := range_ratio, avg_volume := avg_volume,
             current_volume := current_volume }

/-- Module-level screening parameters of news_screener.py (lines 29-34),
at their hard-coded environment defaults. -/
def VOLUME_SURGE_THRESHOLD : ℚ := 3/2

/-- PRICE_CHANGE_MIN default (news_screener.py line 30). -/
def PRICE_CHANGE_MIN : ℚ := 1

/-- PRICE_CHANGE_MAX default (news_screener.py line 31). -/
def PRICE_CHANGE_MAX : ℚ := 20

/-- MIN_PRICE default (news_screener.py line 33). -/
def MIN_PRICE : ℚ := 10

/-- MAX_PRICE default (news_screener.py line 34). -/
def MAX_PRICE : ℚ := 10000

/-- Signal direction (news_screener.py lines 186-197). -/
inductive Direction where
  | BULLISH
  | BEARISH
deriving DecidableEq

/-- Signal strength labels (news_screener.py lines 182-184). -/
inductive SignalStrength where
  | MODERATE
  | STRONG
  | VERY_STRONG
deriving DecidableEq

/-- The signal dict (news_screener.py lines 186-197). -/
structure Signal where
  signal : Direction
  action : String
  strength : SignalStrength
deriving DecidableEq

/-- FyersNewsScreener.determine_signal (news_screener.py lines 170-198). -/
def determine_signal (analysis : Option AnalysisResult) (news_count : Nat) :
    Option Signal :=
  match analysis with
  | none => none
  | some a =>
    if a.volume_ratio ≥ VOLUME_SURGE_THRESHOLD ∧
        PRICE_CHANGE_MIN ≤ |a.price_change| ∧ |a.price_change| ≤ PRICE_CHANGE_MAX then
      let signal_strength :=
        if news_count > 0 then SignalStrength.VERY_STRONG
        else if a.volume_ratio > 3 then SignalStrength.STRONG
        else SignalStrength.MODERATE
      if a.price_change > 0 then
        some { signal := Direction.BULLISH, action := "BUY (Delivery)",
               strength := signal_strength }
      else
        some { signal := Direction.BEARISH, action := "SELL (Intraday)",
               strength := signal_strength }
    else none

/-- One entry of screened_stocks (news_screener.py lines 251-263); the news
payload fields are omitted apart from the count, which is all any claim
reads. -/
structure ScreenedStock where
  symbol : String
  name : String
  ltp : ℚ
  price_change : ℚ
  volume_ratio : ℚ
  signal : Direction
  action : String
  strength : SignalStrength
  news_count : Nat
deriving DecidableEq

/-- Fuel-indexed helper for removeAll; the fuel is the length of the text,
enough because every step consumes at least one character. -/
def removeAllAux (pat : List Char) : Nat → List Char → List Char
  | _, [] => []
  | 0, s => s
  | fuel+1, c :: rest =>
    if !pat.isEmpty && pat.isPrefixOf (c :: rest) then
      removeAllAux pat fuel ((c :: rest).drop pat.length)
    else c :: removeAllAux pat fuel rest

/-- Python str.replace(pat, ''): remove the left-to-right non-overlapping
occurrences of pat. -/
def removeAll (pat s : List Char) : List Char :=
  removeAllAux pat s.length s

/-- symbol.replace('NSE:', '').replace('-EQ', '') (news_screener.py line
253). -/
def cleanName (symbol : String) : String :=
  String.mk (removeAll ("-EQ".toList) (removeAll ("NSE:".toList) symbol.toList))

/-- The external-world responses consumed while scanning one symbol: the
history fetch, the quote fetch and the news fetch (news_screener.py lines
220, 228, 245).  A per-symbol exception inside a fetch is already modelled
by its None result, so the scan loop's catch-and-continue keeps the state
unchanged exactly as the None-skips do. -/
structure SymbolInput where
  symbol : String
  history : Option (List Candle)
  quote : Option Quote
  news : List Article
deriving DecidableEq

/-- The body of one iteration of the scan loop (news_screener.py lines
216-267): skip on missing history, missing quote, out-of-range price,
failed analysis or absent signal; otherwise build the stock record. -/
def processSymbol (inp : SymbolInput) : Option ScreenedStock :=
  match inp.history with
  | none => none
  | some df =>
    match inp.quote with
    | none => none
    | some q =>
      if q.ltp < MIN_PRICE ∨ q.ltp > MAX_PRICE then none
      else
        match analyze_volume_and_price (some df) q with
        | none => none
        | some a =>
          match determine_signal (some a) inp.news.length with
          | none => none
          | some sig =>
            some { symbol := inp.symbol, name := cleanName inp.symbol,
                   ltp := q.ltp, price_change := a.price_change,
                   volume_ratio := a.volume_ratio, signal := sig.signal,
                   action := sig.action, strength := sig.strength,
                   news_count := inp.news.length }

/-- The two instance fields of FyersNewsScreener that the routes read
(news_screener.py lines 39-40). -/
structure ScannerState where
  screened_stocks : List ScreenedStock
  is_scanning : Bool
deriving DecidableEq

/-- The first two statements of scan_stocks (news_screener.py lines
202-203): set is_scanning and reset screened_stocks to a new empty list.
Both assignments target the public fields, so this state is visible to
get_results. -/
def scanStart (_s : ScannerState) : ScannerState :=
  { screened_stocks := [], is_scanning := true }

/-- One loop iteration's effect on the scanner state: append the stock
record to the public screened_stocks list if the symbol produced one
(news_screener.py line 265), otherwise leave the state unchanged. -/
def scanAppend (s : ScannerState) (inp : SymbolInput) : ScannerState :=
  match processSymbol inp with
  | none => s
  | some r => { screened_stocks := s.screened_stocks ++ [r],
                is_scanning := s.is_scanning }

/-- Insertion step of the stable descending sort on volume_ratio. -/
def insertByVolume (x : ScreenedStock) : List ScreenedStock → List ScreenedStock
  | [] => [x]
  | y :: ys =>
    if y.volume_ratio ≤ x.volume_ratio then x :: y :: ys
    else y :: insertByVolume x ys

/-- self.screened_stocks.sort(key=lambda x: x['volume_ratio'], reverse=True)
(news_screener.py line 277).  Python's sort is stable and reverse=True does
not reorder equal keys; this insertion sort realises exactly that stable
descending order. -/
def sortStocks (l : List ScreenedStock) : List ScreenedStock :=
  l.foldr insertByVolume []

/-- The tail of scan_stocks (news_screener.py lines 276-279): sort the
accumulated list in place and clear the is_scanning flag. -/
def scanFinish (s : ScannerState) : ScannerState :=
  { screened_stocks := sortStocks s.screened_stocks, is_scanning := false }

/-- FyersNewsScreener.scan_stocks (news_screener.py lines 200-286) run to
completion over the responses for the symbol universe. -/
def scan_stocks (s : ScannerState) (inputs : List SymbolInput) : ScannerState :=
  scanFinish (inputs.foldl scanAppend (scanStart s))

/-- Every scanner state visible to a concurrent get_results reader during
one scan_stocks call: the state right after the initial reset, the state
after each loop iteration, and the final sorted state. -/
def scanTrace (s : ScannerState) (inputs : List SymbolInput) : List ScannerState :=
  inputs.scanl scanAppend (scanStart s) ++ [scan_stocks s inputs]

/-- The /api/results route (news_screener.py lines 314-326): reads
is_scanning, screened_stocks and its length directly from the instance. -/
def get_results (s : ScannerState) : Bool × List ScreenedStock × Nat :=
  (s.is_scanning, s.screened_stocks, s.screened_stocks.length)

/-- Responses of the /api/scan route (news_screener.py lines 296-312). -/
inductive ScanResponse where
  | started
  | alreadyScanning
deriving DecidableEq

/-- The /api/scan route (news_screener.py lines 296-312) together with the
immediately-begun first statements of the launched scan: when a scan is in
progress the request is rejected with the 400 response and nothing is
touched; otherwise the scan thread starts and performs the scanStart
reset. -/
def start_scan (s : ScannerState) : ScanResponse × ScannerState :=
  if s.is_scanning then (ScanResponse.alreadyScanning, s)
  else (ScanResponse.started, scanStart s)

/-! ## Concrete records used by witnesses and counterexamples -/

/-- The extreme analysis record named by the spec's testable property:
volume_ratio = 1000 and price_change = 50. -/
def extremeAnalysis : AnalysisResult :=
  { volume_ratio := 1000, price_change := 50, range_ratio := 0,
    avg_volume := 0, current_volume := 0 }

/-- A structured summary with is_major = true and sentiment_score = 1. -/
def extremeSummary : NewsSummary :=
  NewsSummary.summary "Highly Positive" 1 "General News" true 5 0

/-- The all-zero analysis record: every banded component takes its else
branch. -/
def baselineAnalysis : AnalysisResult :=
  { volume_ratio := 0, price_change := 0, range_ratio := 0,
    avg_volume := 0, current_volume := 0 }

/-- An analysis record whose volume ratio 2 clears the surge threshold 1.5
but not the 3x mark, with a 2 percent move. -/
def surgeAnalysis : AnalysisResult :=
  { volume_ratio := 2, price_change := 2, range_ratio := 0,
    avg_volume := 100, current_volume := 200 }

/-- A candle with zero traded volume and a 2-point daily range. -/
def flatCandle : Candle :=
  { timestamp := 0, openPrice := 50, high := 51, low := 49, close := 50,
    volume := 0 }

/-- A quote matching flatCandle's price level. -/
def flatQuote : Quote :=
  { ltp := 50, volume := 500, change_percent := 0, prev_close := 50 }

/-- Ten candles whose historical volumes are all zero. -/
def zeroVolumeRows : List Candle :=
  [flatCandle, flatCandle, flatCandle, flatCandle, flatCandle,
   flatCandle, flatCandle, flatCandle, flatCandle, flatCandle]

/-- A typical candle: close 100, a 10-point daily range, volume 100. -/
def demoCandle : Candle :=
  { timestamp := 0, openPrice := 100, high := 105, low := 95, close := 100,
    volume := 100 }

/-- A ten-day history of demoCandle rows. -/
def demoCandles : List Candle :=
  [demoCandle, demoCandle, demoCandle, demoCandle, demoCandle,
   demoCandle, demoCandle, demoCandle, demoCandle, demoCandle]

/-- A quote with twice the average volume and a 2 percent move. -/
def demoQuote : Quote :=
  { ltp := 100, volume := 200, change_percent := 2, prev_close := 99 }

/-- Fetch responses for one symbol that pass every scan filter. -/
def demoInput : SymbolInput :=
  { symbol := "NSE:RELIANCE-EQ", history := some demoCandles,
    quote := some demoQuote, news := [] }

/-- The analysis record produced for demoInput. -/
def demoAnalysis : AnalysisResult :=
  { volume_ratio := 2, price_change := 2, range_ratio := 1/10,
    avg_volume := 100, current_volume := 200 }

/-- The stock record the scan appends for demoInput. -/
def demoStock : ScreenedStock :=
  { symbol := "NSE:RELIANCE-EQ", name := "RELIANCE", ltp := 100,
    price_change := 2, volume_ratio := 2, signal := Direction.BULLISH,
    action := "BUY (Delivery)", strength := SignalStrength.MODERATE,
    news_count := 0 }

/-! ## Component bounds of the strength scorer -/

theorem volumeScore_bounds (a : AnalysisResult) :
    10 ≤ volumeScore a ∧ volumeScore a ≤ 30 := by
  unfold volumeScore; split_ifs <;> norm_num

theorem priceScore_bounds (a : AnalysisResult) :
    10 ≤ priceScore a ∧ priceScore a ≤ 25 := by
  unfold priceScore; split_ifs <;> norm_num

theorem rangeScore_bounds (a : AnalysisResult) :
    0 ≤ rangeScore a ∧ rangeScore a ≤ 20 := by
  unfold rangeScore; split_ifs <;> norm_num

theorem newsScore_bounds (ns : Option NewsSummary) (k : ℤ)
    (h : newsScore ns = some k) : 0 ≤ k ∧ k ≤ 25 := by
  cases ns with
  | none =>
    simp only [newsScore, Option.some.injEq] at h
    omega
  | some s =>
    cases s with
    | noRecentNews => simp [newsScore] at h
    | summary sent sc cat major p n =>
      simp only [newsScore, Option.some.injEq] at h
      subst h
      split_ifs <;> norm_num

/-- Claim C3 (code bug witness): for the empty article list get_news_summary
returns the no-news sentinel string, and passing that sentinel on to
calculate_strength_score does not produce a score at all - the Python code
calls .get on the string and raises AttributeError (modelled as none),
instead of scoring the news component as 0. -/
theorem C3_sentinel_scorer_crashes :
    get_news_summary [] = NewsSummary.noRecentNews ∧
    ∀ (a : AnalysisResult) (df : Option (List Candle)),
      calculate_strength_score a (some NewsSummary.noRecentNews) df = none :=
  ⟨rfl, fun _ _ => rfl⟩

/-- Claim C4: whenever calculate_strength_score returns a score (for any
analysis record and any news summary it does not crash on), that score is an
integer in the interval [0, 100]: the banded sum is clamped at 100 and never
falls below 0. -/
theorem C4_strength_score_in_range (a : AnalysisResult)
    (ns : Option NewsSummary) (df : Option (List Candle)) (n : ℤ)
    (h : calculate_strength_score a ns df = some n) : 0 ≤ n ∧ n ≤ 100 := by
  unfold calculate_strength_score at h
  cases hk : newsScore ns with
  | none => rw [hk] at h; simp at h
  | some k =>
    rw [hk] at h
    simp only [Option.map_some', Option.some.injEq] at h
    subst h
    have hv := volumeScore_bounds a
    have hp := priceScore_bounds a
    have hr := rangeScore_bounds a
    have hn := newsScore_bounds ns k hk
    exact ⟨le_min (by linarith [hv.1, hp.1, hr.1, hn.1]) (by norm_num),
           min_le_right _ _⟩

/-- Witness for C4: at the spec's extreme input the scorer evaluates to 80,
which the theorem places inside [0, 100]. -/
theorem C4_witness :
    calculate_strength_score extremeAnalysis (some extremeSummary) none = some 80 ∧
    ((0:ℤ) ≤ 80 ∧ (80:ℤ) ≤ 100) := by
  have h : calculate_strength_score extremeAnalysis (some extremeSummary) none
      = some 80 := by
    norm_num [calculate_strength_score, newsScore, volumeScore, priceScore,
      rangeScore, extremeAnalysis, extremeSummary]
  exact ⟨h, C4_strength_score_in_range extremeAnalysis (some extremeSummary) none 80 h⟩

/-- Claim C10: whenever calculate_strength_score returns a score, it is at
least 20 - the volume and price-change components each contribute a minimum
of 10 in their else branches - so the reachable range is [20, 100]. -/
theorem C10_strength_score_at_least_20 (a : AnalysisResult)
    (ns : Option NewsSummary) (df : Option (List Candle)) (n : ℤ)
    (h : calculate_strength_score a ns df = some n) : 20 ≤ n ∧ n ≤ 100 := by
  unfold calculate_strength_score at h
  cases hk : newsScore ns with
  | none => rw [hk] at h; simp at h
  | some k =>
    rw [hk] at h
    simp only [Option.map_some', Option.some.injEq] at h
    subst h
    have hv := volumeScore_bounds a
    have hp := priceScore_bounds a
    have hr := rangeScore_bounds a
    have hn := newsScore_bounds ns k hk
    exact ⟨le_min (by linarith [hv.1, hp.1, hr.1, hn.1]) (by norm_num),
           min_le_right _ _⟩

/-- Witness for C10: the minimal reachable score, 10 + 10 + 0 + 0 = 20,
attained at the all-zero analysis record with no news summary. -/
theorem C10_witness :
    calculate_strength_score baselineAnalysis none none = some 20 ∧
    ((20:ℤ) ≤ 20 ∧ (20:ℤ) ≤ 100) := by
  have h : calculate_strength_score baselineAnalysis none none = some 20 := by
    norm_num [calculate_strength_score, newsScore, volumeScore, priceScore,
      rangeScore, baselineAnalysis]
  exact ⟨h, C10_strength_score_at_least_20 baselineAnalysis none none 20 h⟩

/-! ## Sentiment classifier -/

/-- Case analysis of the sentiment score: it is literally 0, or the counts
are not both zero and it is their normalised difference. -/
theorem analyze_sentiment_score_cases (articles : List Article) :
    (analyze_sentiment articles).1 = 0 ∨
    (0 < (sentimentCounts articles).1 + (sentimentCounts articles).2 ∧
      (analyze_sentiment articles).1 =
        (((sentimentCounts articles).1 : ℚ) - ((sentimentCounts articles).2 : ℚ)) /
          (((sentimentCounts articles).1 : ℚ) + ((sentimentCounts articles).2 : ℚ))) := by
  simp only [analyze_sentiment]
  split_ifs with h1 h2
  · left; rfl
  · left; rfl
  · right; exact ⟨Nat.pos_of_ne_zero h2, rfl⟩

/-- Claim C7: the sentiment score always lies in [-1, 1], it is 0 when both
keyword counts are 0, and the empty article list makes get_news_summary
return the literal no-news sentinel rather than a structured summary. -/
theorem C7_sentiment_score_bounded (articles : List Article) :
    -1 ≤ (analyze_sentiment articles).1 ∧ (analyze_sentiment articles).1 ≤ 1 ∧
    ((sentimentCounts articles).1 = 0 ∧ (sentimentCounts articles).2 = 0 →
      (analyze_sentiment articles).1 = 0) ∧
    (articles = [] → get_news_summary articles = NewsSummary.noRecentNews) := by
  have hbounds : -1 ≤ (analyze_sentiment articles).1 ∧
      (analyze_sentiment articles).1 ≤ 1 := by
    rcases analyze_sentiment_score_cases articles with h | ⟨hpos, heq⟩
    · rw [h]; norm_num
    · set p := (sentimentCounts articles).1 with hp
      set n := (sentimentCounts articles).2 with hn
      have hden : (0:ℚ) < (p : ℚ) + (n : ℚ) := by exact_mod_cast hpos
      rw [heq]
      constructor
      · rw [le_div_iff hden]
        have : (0:ℚ) ≤ (p : ℚ) := Nat.cast_nonneg p
        linarith
      · rw [div_le_one hden]
        have : (0:ℚ) ≤ (n : ℚ) := Nat.cast_nonneg n
        linarith
  refine ⟨hbounds.1, hbounds.2, ?_, ?_⟩
  · intro ⟨hp0, hn0⟩
    rcases analyze_sentiment_score_cases articles with h | ⟨hpos, _⟩
    · exact h
    · omega
  · intro h
    subst h
    rfl

/-- Witness for C7 at the empty article list: the score is 0, hence inside
[-1, 1], both counts are 0, and the summary is the sentinel. -/
theorem C7_witness :
    -1 ≤ (analyze_sentiment []).1 ∧ (analyze_sentiment []).1 ≤ 1 ∧
    (analyze_sentiment []).1 = 0 ∧
    get_news_summary [] = NewsSummary.noRecentNews := by
  obtain ⟨h1, h2, h3, h4⟩ := C7_sentiment_score_bounded []
  exact ⟨h1, h2, h3 ⟨rfl, rfl⟩, h4 rfl⟩

/-! ## Signal determiner -/

/-- Counterexample to claim C2: with one news article present the code
labels this signal VERY STRONG although its volume_ratio is not above 3; the
claim requires VERY STRONG only when volume_ratio > 3 and news is present
(and MODERATE here). -/
theorem C2_counterexample :
    surgeAnalysis.volume_ratio ≥ VOLUME_SURGE_THRESHOLD ∧
    PRICE_CHANGE_MIN ≤ |surgeAnalysis.price_change| ∧
    |surgeAnalysis.price_change| ≤ PRICE_CHANGE_MAX ∧
    ¬ (3 : ℚ) < surgeAnalysis.volume_ratio ∧
    (determine_signal (some surgeAnalysis) 1).map Signal.strength =
      some SignalStrength.VERY_STRONG := by
  refine ⟨by norm_num [surgeAnalysis, VOLUME_SURGE_THRESHOLD], ?_, ?_,
    by norm_num [surgeAnalysis], ?_⟩
  · rw [show |surgeAnalysis.price_change| = 2 from by
      norm_num [surgeAnalysis, abs_of_nonneg]]
    norm_num [PRICE_CHANGE_MIN]
  · rw [show |surgeAnalysis.price_change| = 2 from by
      norm_num [surgeAnalysis, abs_of_nonneg]]
    norm_num [PRICE_CHANGE_MAX]
  · norm_num [determine_signal, surgeAnalysis, VOLUME_SURGE_THRESHOLD,
      PRICE_CHANGE_MIN, PRICE_CHANGE_MAX, abs_of_nonneg]

/-- Claim C2 as amended: under the signal preconditions, the strength is
VERY STRONG exactly when at least one news article is present (regardless of
the volume ratio); with no news it is STRONG exactly when volume_ratio > 3
and MODERATE otherwise. -/
theorem C2_amended_strength_rule (a : AnalysisResult) (news_count : Nat)
    (h1 : a.volume_ratio ≥ VOLUME_SURGE_THRESHOLD)
    (h2 : PRICE_CHANGE_MIN ≤ |a.price_change|)
    (h3 : |a.price_change| ≤ PRICE_CHANGE_MAX) :
    (determine_signal (some a) news_count).map Signal.strength =
      some (if 0 < news_count then SignalStrength.VERY_STRONG
            else if 3 < a.volume_ratio then SignalStrength.STRONG
            else SignalStrength.MODERATE) := by
  simp only [determine_signal]
  rw [if_pos ⟨h1, h2, h3⟩]
  by_cases hp : a.price_change > 0
  · rw [if_pos hp]; rfl
  · rw [if_neg hp]; rfl

/-- Witness for the amended C2 at the concrete record surgeAnalysis with one
news article: the strength evaluates to VERY STRONG. -/
theorem C2_amended_witness :
    (determine_signal (some surgeAnalysis) 1).map Signal.strength =
      some (if 0 < 1 then SignalStrength.VERY_STRONG
            else if 3 < surgeAnalysis.volume_ratio then SignalStrength.STRONG
            else SignalStrength.MODERATE) := by
  refine C2_amended_strength_rule surgeAnalysis 1
    (by norm_num [surgeAnalysis, VOLUME_SURGE_THRESHOLD]) ?_ ?_
  · rw [show |surgeAnalysis.price_change| = 2 from by
      norm_num [surgeAnalysis, abs_of_nonneg]]
    norm_num [PRICE_CHANGE_MIN]
  · rw [show |surgeAnalysis.price_change| = 2 from by
      norm_num [surgeAnalysis, abs_of_nonneg]]
    norm_num [PRICE_CHANGE_MAX]

/-! ## Volume and price analysis -/

/-- Claim C9: the analysis fails exactly when the history is absent or has
fewer than 10 candles; with 10 or more candles and a quote it always
produces a record. -/
theorem C9_analysis_none_iff_short (df : Option (List Candle)) (q : Quote) :
    analyze_volume_and_price df q = none ↔
      (df = none ∨ ∃ rows, df = some rows ∧ rows.length < 10) := by
  cases df with
  | none => simp [analyze_volume_and_price]
  | some rows =>
    simp only [analyze_volume_and_price]
    by_cases h : rows.length < 10
    · simp [h]
    · simp [h]

/-- Claim C6: when the mean of the historical volumes (final candle
excluded) is zero, the analysis still succeeds and reports volume_ratio = 0;
the division is guarded. -/
theorem C6_zero_mean_volume_ratio (rows : List Candle) (q : Quote)
    (hlen : 10 ≤ rows.length)
    (hmean : mean (rows.dropLast.map Candle.volume) = 0) :
    (analyze_volume_and_price (some rows) q).map AnalysisResult.volume_ratio =
      some 0 := by
  simp only [analyze_volume_and_price]
  rw [if_neg (by omega : ¬ rows.length < 10)]
  simp only [Option.map_some', Option.some.injEq]
  rw [hmean]
  simp

/-- Witness for C6: ten candles with all-zero historical volume make the
analysis return volume_ratio = 0 rather than divide by zero. -/
theorem C6_witness :
    10 ≤ zeroVolumeRows.length ∧
    mean (zeroVolumeRows.dropLast.map Candle.volume) = 0 ∧
    (analyze_volume_and_price (some zeroVolumeRows) flatQuote).map
      AnalysisResult.volume_ratio = some 0 := by
  have h1 : 10 ≤ zeroVolumeRows.length := by simp [zeroVolumeRows]
  have h2 : mean (zeroVolumeRows.dropLast.map Candle.volume) = 0 := by
    norm_num [zeroVolumeRows, flatCandle, mean, List.dropLast]
  exact ⟨h1, h2, C6_zero_mean_volume_ratio zeroVolumeRows flatQuote h1 h2⟩

/-! ## Scanner -/

/-- Unrolling the scan loop: the accumulated public list grows by exactly
the filterMap of processSymbol over the inputs, and the flag is untouched by
the loop itself. -/
theorem foldl_scanAppend (inputs : List SymbolInput) :
    ∀ (acc : List ScreenedStock) (b : Bool),
      inputs.foldl scanAppend ⟨acc, b⟩ =
        ⟨acc ++ inputs.filterMap processSymbol, b⟩ := by
  induction inputs with
  | nil => intro acc b; simp
  | cons i rest ih =>
    intro acc b
    simp only [List.foldl_cons, List.filterMap_cons]
    cases h : processSymbol i with
    | none => simp [scanAppend, h, ih]
    | some r => simp [scanAppend, h, ih acc, ih (acc ++ [r])]

/-- The final public list of a completed scan is the stable descending sort
of the records discovered in scan order. -/
theorem scan_stocks_screened (s : ScannerState) (inputs : List SymbolInput) :
    (scan_stocks s inputs).screened_stocks =
      sortStocks (inputs.filterMap processSymbol) := by
  unfold scan_stocks scanFinish
  rw [show scanStart s = (⟨[], true⟩ : ScannerState) from rfl,
    foldl_scanAppend]
  simp

/-- Claim C1 as amended: starting a scan immediately clears the public
result list; during the scan the public list is the partial list of results
found so far (not the previous snapshot); after completion it is the sorted
list of the new scan's results, and the flag is cleared. -/
theorem C1_amended_scan_clears_then_appends (s : ScannerState)
    (inputs : List SymbolInput) :
    (scanStart s).screened_stocks = [] ∧
    (∀ n : Nat, ((inputs.take n).foldl scanAppend (scanStart s)).screened_stocks
        = (inputs.take n).filterMap processSymbol) ∧
    (scan_stocks s inputs).screened_stocks =
      sortStocks (inputs.filterMap processSymbol) ∧
    (scan_stocks s inputs).is_scanning = false := by
  refine ⟨rfl, ?_, scan_stocks_screened s inputs, rfl⟩
  intro n
  rw [show scanStart s = (⟨[], true⟩ : ScannerState) from rfl,
    foldl_scanAppend]
  simp

/-- Membership in an insertion step. -/
theorem mem_insertByVolume (z x : ScreenedStock) (l : List ScreenedStock)
    (h : z ∈ insertByVolume x l) : z = x ∨ z ∈ l := by
  induction l with
  | nil => simpa [insertByVolume] using h
  | cons y ys ih =>
    simp only [insertByVolume] at h
    split_ifs at h
    · simpa using h
    · rcases List.mem_cons.mp h with rfl | hz
      · right; exact List.mem_cons_self _ _
      · rcases ih hz with rfl | hz'
        · left; rfl
        · right; exact List.mem_cons_of_mem y hz'

/-- Inserting preserves the descending order on volume_ratio. -/
theorem pairwise_insertByVolume (x : ScreenedStock) (l : List ScreenedStock)
    (h : l.Pairwise (fun a b => b.volume_ratio ≤ a.volume_ratio)) :
    (insertByVolume x l).Pairwise (fun a b => b.volume_ratio ≤ a.volume_ratio) := by
  induction l with
  | nil => simp [insertByVolume]
  | cons y ys ih =>
    rcases List.pairwise_cons.mp h with ⟨hy, hys⟩
    simp only [insertByVolume]
    split_ifs with hc
    · refine List.pairwise_cons.mpr ⟨?_, h⟩
      intro z hz
      rcases List.mem_cons.mp hz with rfl | hz'
      · exact hc
      · exact le_trans (hy z hz') hc
    · refine List.pairwise_cons.mpr ⟨?_, ih hys⟩
      intro z hz
      rcases mem_insertByVolume z x ys hz with rfl | hz'
      · exact le_of_lt (not_le.mp hc)
      · exact hy z hz'

/-- sortStocks sorts by volume_ratio in descending order. -/
theorem sortStocks_pairwise (l : List ScreenedStock) :
    (sortStocks l).Pairwise (fun a b => b.volume_ratio ≤ a.volume_ratio) := by
  induction l with
  | nil => simp [sortStocks]
  | cons x xs ih => exact pairwise_insertByVolume x (sortStocks xs) ih

/-- Inserting an element behind the strictly-larger prefix keeps it in front
of every equal-keyed element already present: the filtered view at the new
element's key gains it at the front, every other key's view is unchanged. -/
theorem filter_insertByVolume (k : ℚ) (x : ScreenedStock)
    (l : List ScreenedStock) :
    (insertByVolume x l).filter (fun r => decide (r.volume_ratio = k)) =
      if x.volume_ratio = k
      then x :: l.filter (fun r => decide (r.volume_ratio = k))
      else l.filter (fun r => decide (r.volume_ratio = k)) := by
  induction l with
  | nil =>
    by_cases hx : x.volume_ratio = k <;>
      simp [insertByVolume, List.filter_cons, hx]
  | cons y ys ih =>
    by_cases hc : y.volume_ratio ≤ x.volume_ratio
    · simp only [insertByVolume, if_pos hc]
      by_cases hx : x.volume_ratio = k <;> simp [List.filter_cons, hx]
    · simp only [insertByVolume, if_neg hc]
      by_cases hx : x.volume_ratio = k
      · have hy : ¬ y.volume_ratio = k :=
          ne_of_gt (hx ▸ not_le.mp hc)
        simp [List.filter_cons, hy, ih, hx]
      · simp [List.filter_cons, ih, hx]

/-- The stable sort leaves the subsequence of each volume_ratio class
exactly as it was discovered. -/
theorem filter_sortStocks (k : ℚ) (l : List ScreenedStock) :
    (sortStocks l).filter (fun r => decide (r.volume_ratio = k)) =
      l.filter (fun r => decide (r.volume_ratio = k)) := by
  induction l with
  | nil => rfl
  | cons x xs ih =>
    show (insertByVolume x (sortStocks xs)).filter _ = _
    rw [filter_insertByVolume]
    by_cases hx : x.volume_ratio = k <;> simp [List.filter_cons, hx, ih]

/-- Claim C8: after a completed scan the published list is sorted by
volume_ratio descending, and within each equal-volume_ratio class the
records keep their scan discovery order (stability). -/
theorem C8_results_sorted_and_stable (s : ScannerState)
    (inputs : List SymbolInput) :
    ((scan_stocks s inputs).screened_stocks).Pairwise
      (fun a b => b.volume_ratio ≤ a.volume_ratio) ∧
    ∀ k : ℚ,
      ((scan_stocks s inputs).screened_stocks).filter
          (fun r => decide (r.volume_ratio = k)) =
        (inputs.filterMap processSymbol).filter
          (fun r => decide (r.volume_ratio = k)) := by
  rw [scan_stocks_screened]
  exact ⟨sortStocks_pairwise _, fun k => filter_sortStocks k _⟩

/-- Claim C5: a start_scan request made while a scan is in progress is
answered with the already-scanning rejection and changes nothing; from a
back-to-back pair of start_scan calls the second is rejected and the pair's
net state is that of the single first call, so the public result list is
reset exactly once. -/
theorem C5_start_scan_rejected_without_state_change (s : ScannerState) :
    (s.is_scanning = true → start_scan s = (ScanResponse.alreadyScanning, s)) ∧
    (s.is_scanning = false →
      (start_scan (start_scan s).2).1 = ScanResponse.alreadyScanning ∧
      (start_scan (start_scan s).2).2 = (start_scan s).2) := by
  constructor
  · intro h; simp [start_scan, h]
  · intro h; simp [start_scan, h, scanStart]

/-- Witness for C5 at concrete states: a busy scanner rejects and keeps its
state; an idle scanner's second back-to-back call is rejected. -/
theorem C5_witness :
    start_scan ⟨[demoStock], true⟩ =
      (ScanResponse.alreadyScanning, (⟨[demoStock], true⟩ : ScannerState)) ∧
    (start_scan (start_scan ⟨[demoStock], false⟩).2).1 =
      ScanResponse.alreadyScanning :=
  ⟨(C5_start_scan_rejected_without_state_change ⟨[demoStock], true⟩).1 rfl,
   ((C5_start_scan_rejected_without_state_change ⟨[demoStock], false⟩).2 rfl).1⟩

/-- Evaluating the analysis on the demo history and quote. -/
theorem analyze_demo :
    analyze_volume_and_price (some demoCandles) demoQuote = some demoAnalysis := by
  norm_num [analyze_volume_and_price, demoCandles, demoCandle, demoQuote,
    demoAnalysis, mean, List.dropLast, abs_of_nonneg]

/-- Evaluating the signal on the demo analysis with no news. -/
theorem determine_demo :
    determine_signal (some demoAnalysis) 0 =
      some { signal := Direction.BULLISH, action := "BUY (Delivery)",
             strength := SignalStrength.MODERATE } := by
  norm_num [determine_signal, demoAnalysis, VOLUME_SURGE_THRESHOLD,
    PRICE_CHANGE_MIN, PRICE_CHANGE_MAX, abs_of_nonneg]

/-- The scan loop body turns demoInput into demoStock. -/
theorem processSymbol_demo : processSymbol demoInput = some demoStock := by
  have hq : ¬ (demoQuote.ltp < MIN_PRICE ∨ demoQuote.ltp > MAX_PRICE) := by
    norm_num [demoQuote, MIN_PRICE, MAX_PRICE]
  simp only [processSymbol, demoInput, if_neg hq, analyze_demo,
    List.length_nil, determine_demo]
  rfl

/-- A full one-symbol scan from an idle empty scanner publishes exactly
the demo stock. -/
theorem scan_demo :
    scan_stocks ⟨[], false⟩ [demoInput] = ⟨[demoStock], false⟩ := by
  unfold scan_stocks scanFinish scanStart
  simp [scanAppend, processSymbol_demo, sortStocks, insertByVolume]

/-- Counterexample to claim C1: a completed scan leaves the snapshot
([demoStock], count 1) publicly visible, yet the very first state of the
next scan call - a state in that scan's visible trace - already has
screened_stocks = []: starting a new scan clears the published results
instead of keeping the last completed snapshot visible. -/
theorem C1_counterexample :
    get_results (scan_stocks ⟨[], false⟩ [demoInput]) = (false, [demoStock], 1) ∧
    scanStart (scan_stocks ⟨[], false⟩ [demoInput]) ∈
      scanTrace (scan_stocks ⟨[], false⟩ [demoInput]) [demoInput] ∧
    (scanStart (scan_stocks ⟨[], false⟩ [demoInput])).screened_stocks = [] := by
  refine ⟨?_, ?_, rfl⟩
  · rw [scan_demo]; rfl
  · simp [scanTrace, List.scanl]
